import Mathlib

/-!
Shallow embedding of `src/backend/lib/youtube_transcript_fetcher.py`.

The script wraps an external caption-retrieval library: `api.fetch(video_id,
languages=['en'])` either returns a fetched-transcript object (an ordered
sequence of snippets, each with `text`, `start`, `duration`, plus an optional
`language_code` attribute) or raises one of the library's exceptions.  The
library's behaviour is modelled as a function parameter of type `ApiFetch`;
the wrapper itself is translated line by line below.
-/

namespace YoutubeTranscriptFetcher

/-- JSON-serializable values actually produced by the script: Python `bool`
and `str`. -/
inductive JVal where
  | bool (b : Bool)
  | str (s : String)
deriving DecidableEq

/-- A Python dict with string keys, kept in insertion order (as `json.dumps`
serializes it). -/
abbrev PyDict := List (String × JVal)

/-- One caption snippet of the fetched transcript: `text`, `start`,
`duration`.  The timing floats are modelled as rationals; the script reads
only `text`. -/
structure Snippet where
  text : String
  start : Rat
  duration : Rat
deriving DecidableEq

/-- The `FetchedTranscript` object returned by `api.fetch`: iterable snippets
and a `language_code` attribute; `none` models the attribute being absent
(the script guards with `hasattr`). -/
structure FetchedTranscript where
  snippets : List Snippet
  language_code : Option String
deriving DecidableEq

/-- The exceptions the library may raise from `api.fetch`:
the three distinguished kinds imported from `youtube_transcript_api._errors`,
and `other desc` for any other exception `e`, carrying `str(e)`. -/
inductive LibError where
  | transcriptsDisabled
  | videoUnavailable
  | noTranscriptFound
  | other (desc : String)
deriving DecidableEq

/-- Outcome of one library call: a fetched transcript or a raised
exception. -/
inductive LibOutcome where
  | fetched (t : FetchedTranscript)
  | raised (e : LibError)
deriving DecidableEq

/-- The external library's `api.fetch`, as a function of the video id and the
preferred-language list. -/
abbrev ApiFetch := String → List String → LibOutcome

/-- Python `' '.join(l)`: elements in order, one space between consecutive
elements. -/
def joinSpace : List String → String
  | [] => ""
  | [x] => x
  | x :: xs => x ++ " " ++ joinSpace xs

/-- `fetch_transcript(video_id)` from the script, with the external library
passed in as `api`.  The `try` body calls `api.fetch(video_id,
languages=['en'])`, joins the snippet texts with spaces and reports the
transcript object's `language_code` (defaulting to `'en'`); the four `except`
clauses each return their fixed dict. -/
def fetch_transcript (api : ApiFetch) (video_id : String) : PyDict :=
  match api video_id ["en"] with
  | .fetched transcript_obj =>
      [("success", .bool true),
       ("transcript", .str (joinSpace (transcript_obj.snippets.map Snippet.text))),
       ("language", .str (match transcript_obj.language_code with
         | some c => c
         | none => "en"))]
  | .raised .transcriptsDisabled =>
      [("success", .bool false),
       ("error", .str "Transcripts are disabled for this video")]
  | .raised .videoUnavailable =>
      [("success", .bool false),
       ("error", .str "Video is unavailable")]
  | .raised .noTranscriptFound =>
      [("success", .bool false),
       ("error", .str "No transcript found for this video")]
  | .raised (.other e) =>
      [("success", .bool false),
       ("error", .str e)]

/-- The same dispatch as `fetch_transcript`, as a function of the library
call's outcome alone; used to state that `fetch_transcript` depends on the
library only through the single call `api.fetch(video_id, ['en'])`. -/
def handleOutcome : LibOutcome → PyDict
  | .fetched transcript_obj =>
      [("success", .bool true),
       ("transcript", .str (joinSpace (transcript_obj.snippets.map Snippet.text))),
       ("language", .str (match transcript_obj.language_code with
         | some c => c
         | none => "en"))]
  | .raised .transcriptsDisabled =>
      [("success", .bool false),
       ("error", .str "Transcripts are disabled for this video")]
  | .raised .videoUnavailable =>
      [("success", .bool false),
       ("error", .str "Video is unavailable")]
  | .raised .noTranscriptFound =>
      [("success", .bool false),
       ("error", .str "No transcript found for this video")]
  | .raised (.other e) =>
      [("success", .bool false),
       ("error", .str e)]

/-- Lowercase hex digit, as Python's `json` module emits. -/
def hexDigit (n : Nat) : Char :=
  if n < 10 then Char.ofNat (48 + n) else Char.ofNat (87 + n)

/-- Four lowercase hex digits of a 16-bit value. -/
def u16hex (n : Nat) : String :=
  String.mk [hexDigit (n / 4096 % 16), hexDigit (n / 256 % 16),
             hexDigit (n / 16 % 16), hexDigit (n % 16)]

/-- `json.dumps` escaping of one character (default `ensure_ascii=True`):
backslash escapes for quote, backslash and the named controls, `\u00xx` for
the other controls, plain for printable ASCII, `\uxxxx` (with surrogate
pairs beyond the BMP) for everything else. -/
def escapeChar (c : Char) : String :=
  if c = '"' then "\\\""
  else if c = '\\' then "\\\\"
  else if c = '\n' then "\\n"
  else if c = '\r' then "\\r"
  else if c = '\t' then "\\t"
  else if c.toNat = 8 then "\\b"
  else if c.toNat = 12 then "\\f"
  else if c.toNat < 32 then "\\u" ++ u16hex c.toNat
  else if c.toNat < 127 then String.singleton c
  else if c.toNat < 65536 then "\\u" ++ u16hex c.toNat
  else "\\u" ++ u16hex (55296 + (c.toNat - 65536) / 1024)
       ++ "\\u" ++ u16hex (56320 + (c.toNat - 65536) % 1024)

/-- A JSON string literal: quoted, characters escaped. -/
def jsonStr (s : String) : String :=
  "\"" ++ String.join (s.data.map escapeChar) ++ "\""

/-- Serialization of one value. -/
def dumpVal : JVal → String
  | .bool true => "true"
  | .bool false => "false"
  | .str s => jsonStr s

/-- `json.dumps` on a dict, with the default separators `", "` and `": "`. -/
def jsonDumps (d : PyDict) : String :=
  "\x7b" ++ String.intercalate ", "
    (d.map fun kv => jsonStr kv.1 ++ ": " ++ dumpVal kv.2) ++ "\x7d"

/-- The dict printed on a malformed invocation. -/
def usageDict : PyDict :=
  [("success", .bool false),
   ("error", .str "Usage: youtube_transcript_fetcher.py <video_id>")]

/-- The `__main__` block: given `sys.argv` (program name included), the pair
of the line printed to standard output and the process exit status.
`len(sys.argv) != 2` prints the usage dict and exits 1; otherwise the script
runs `fetch_transcript(sys.argv[1])`, prints its JSON and exits 0. -/
def runMain (api : ApiFetch) (argv : List String) : String × Nat :=
  match argv with
  | [_, video_id] => (jsonDumps (fetch_transcript api video_id), 0)
  | _ => (jsonDumps usageDict, 1)

/-- The failure-shaped dict: `success` false plus an `error` message. -/
def failureDict (msg : String) : PyDict :=
  [("success", .bool false), ("error", .str msg)]

/-- The keys of a dict, in order. -/
def keys (d : PyDict) : List String := d.map Prod.fst

/-- Dict lookup by key (first match). -/
def lookup (d : PyDict) (k : String) : Option JVal :=
  (d.find? fun kv => kv.1 == k).map Prod.snd

/- Concrete library behaviours used to witness the theorems below. -/

/-- A library that always raises `TranscriptsDisabled`. -/
def apiDisabled : ApiFetch := fun _ _ => .raised .transcriptsDisabled

/-- A library that always raises `VideoUnavailable`. -/
def apiUnavailable : ApiFetch := fun _ _ => .raised .videoUnavailable

/-- A library that always raises `NoTranscriptFound`. -/
def apiNoTranscript : ApiFetch := fun _ _ => .raised .noTranscriptFound

/-- A library that always raises an undistinguished exception. -/
def apiOther : ApiFetch := fun _ _ => .raised (.other "boom")

/-- A three-snippet transcript with texts `a`, `b`, `c`. -/
def tABC : FetchedTranscript :=
  ⟨[⟨"a", 0, 0⟩, ⟨"b", 0, 0⟩, ⟨"c", 0, 0⟩], some "en"⟩

/-- A library that returns `tABC`. -/
def apiABC : ApiFetch := fun _ _ => .fetched tABC

/-- A transcript exposing language code `de`. -/
def tDe : FetchedTranscript := ⟨[⟨"hallo", 0, 1⟩], some "de"⟩

/-- A library that returns `tDe`. -/
def apiDe : ApiFetch := fun _ _ => .fetched tDe

/-- A transcript not exposing a language code. -/
def tNoLang : FetchedTranscript := ⟨[⟨"hi", 0, 1⟩], none⟩

/-- A library that returns `tNoLang`. -/
def apiNoLang : ApiFetch := fun _ _ => .fetched tNoLang

lemma fetch_transcript_eq_handle (api : ApiFetch) (vid : String) :
    fetch_transcript api vid = handleOutcome (api vid ["en"]) := by
  cases h : api vid ["en"] with
  | fetched t => simp [fetch_transcript, handleOutcome, h]
  | raised e => cases e <;> simp [fetch_transcript, handleOutcome, h]

lemma joinSpace_ne_empty :
    ∀ l : List String, (∃ x ∈ l, x ≠ "") → joinSpace l ≠ ""
  | [], h => by simp at h
  | [x], h => by
      simp at h
      simpa [joinSpace] using h
  | x :: y :: ys, _ => by
      intro hempty
      have hl := congrArg String.length hempty
      simp [joinSpace, String.length_append] at hl
      exact absurd hl.1.2 (by decide)

/-- Claim C1: when the library raises one of the three distinguished
exceptions, `fetch_transcript` returns the failure dict with the exact fixed
message for that kind. -/
theorem distinguished_error_messages (api : ApiFetch) (vid : String) :
    (api vid ["en"] = .raised .transcriptsDisabled →
      fetch_transcript api vid = failureDict "Transcripts are disabled for this video") ∧
    (api vid ["en"] = .raised .videoUnavailable →
      fetch_transcript api vid = failureDict "Video is unavailable") ∧
    (api vid ["en"] = .raised .noTranscriptFound →
      fetch_transcript api vid = failureDict "No transcript found for this video") := by
  refine ⟨?_, ?_, ?_⟩ <;> intro h <;> rw [fetch_transcript_eq_handle, h] <;> rfl

/-- Witness for C1 at concrete library behaviours. -/
theorem distinguished_error_messages_witness :
    fetch_transcript apiDisabled "dQw4w9WgXcQ" =
      failureDict "Transcripts are disabled for this video" ∧
    fetch_transcript apiUnavailable "dQw4w9WgXcQ" =
      failureDict "Video is unavailable" ∧
    fetch_transcript apiNoTranscript "dQw4w9WgXcQ" =
      failureDict "No transcript found for this video" :=
  ⟨(distinguished_error_messages apiDisabled "dQw4w9WgXcQ").1 rfl,
   (distinguished_error_messages apiUnavailable "dQw4w9WgXcQ").2.1 rfl,
   (distinguished_error_messages apiNoTranscript "dQw4w9WgXcQ").2.2 rfl⟩

/-- Claim C2: when the library raises any undistinguished exception,
`fetch_transcript` returns the failure dict whose `error` field is that
exception's own description, verbatim. -/
theorem unknown_error_message (api : ApiFetch) (vid msg : String)
    (h : api vid ["en"] = .raised (.other msg)) :
    fetch_transcript api vid = failureDict msg := by
  rw [fetch_transcript_eq_handle, h]; rfl

/-- Witness for C2. -/
theorem unknown_error_message_witness :
    fetch_transcript apiOther "dQw4w9WgXcQ" = failureDict "boom" :=
  unknown_error_message apiOther "dQw4w9WgXcQ" "boom" rfl

/-- Claim C3: on a successful fetch the `transcript` field is the snippet
texts joined in sequence order with a single space between consecutive
segments; in particular texts `a`, `b`, `c` join to `a b c`. -/
theorem transcript_text_joined (api : ApiFetch) (vid : String)
    (t : FetchedTranscript) (h : api vid ["en"] = .fetched t) :
    lookup (fetch_transcript api vid) "transcript" =
      some (.str (joinSpace (t.snippets.map Snippet.text))) ∧
    joinSpace ["a", "b", "c"] = "a b c" := by
  rw [fetch_transcript_eq_handle, h]
  exact ⟨rfl, rfl⟩

/-- Witness for C3 at the three-snippet transcript `a`, `b`, `c`. -/
theorem transcript_text_joined_witness :
    lookup (fetch_transcript apiABC "dQw4w9WgXcQ") "transcript" =
      some (.str "a b c") ∧
    joinSpace ["a", "b", "c"] = "a b c" :=
  transcript_text_joined apiABC "dQw4w9WgXcQ" tABC rfl

/-- Claim C4: with an argument count different from one, the script prints
the usage JSON object and exits with status 1, and the output does not
depend on the library at all (the fetch is never run). -/
theorem usage_error_output (api : ApiFetch) (prog : String) (args : List String)
    (h : args.length ≠ 1) :
    runMain api (prog :: args) = (jsonDumps usageDict, 1) ∧
    ∀ api2 : ApiFetch, runMain api (prog :: args) = runMain api2 (prog :: args) := by
  match args with
  | [] => exact ⟨rfl, fun _ => rfl⟩
  | [a] => exact absurd rfl h
  | a :: b :: rest => exact ⟨rfl, fun _ => rfl⟩

/-- Witness for C4 at a zero-argument invocation. -/
theorem usage_error_output_witness :
    runMain apiDisabled ["youtube_transcript_fetcher.py"] = (jsonDumps usageDict, 1) :=
  (usage_error_output apiDisabled "youtube_transcript_fetcher.py" [] (by decide)).1

/-- Claim C5: with exactly one argument the process exits 0 and prints the
JSON of `fetch_transcript`'s result, and every exception the library raises
is converted into a failure dict rather than propagating. -/
theorem one_arg_exits_zero (api : ApiFetch) (prog vid : String) :
    (runMain api [prog, vid]).2 = 0 ∧
    (runMain api [prog, vid]).1 = jsonDumps (fetch_transcript api vid) ∧
    ∀ e : LibError, api vid ["en"] = .raised e →
      ∃ msg, fetch_transcript api vid = failureDict msg := by
  refine ⟨rfl, rfl, ?_⟩
  intro e h
  rw [fetch_transcript_eq_handle, h]
  cases e <;> exact ⟨_, rfl⟩

/-- Witness for C5 at a library raising an undistinguished exception. -/
theorem one_arg_exits_zero_witness :
    (runMain apiOther ["youtube_transcript_fetcher.py", "xyz"]).2 = 0 ∧
    ∃ msg, fetch_transcript apiOther "xyz" = failureDict msg :=
  ⟨(one_arg_exits_zero apiOther "youtube_transcript_fetcher.py" "xyz").1,
   (one_arg_exits_zero apiOther "youtube_transcript_fetcher.py" "xyz").2.2
     (.other "boom") rfl⟩

/-- Claim C6: on a successful fetch the `language` field is the transcript
object's language code, and `en` when none is exposed. -/
theorem language_reported (api : ApiFetch) (vid : String) (t : FetchedTranscript)
    (h : api vid ["en"] = .fetched t) :
    (∀ c, t.language_code = some c →
      lookup (fetch_transcript api vid) "language" = some (.str c)) ∧
    (t.language_code = none →
      lookup (fetch_transcript api vid) "language" = some (.str "en")) := by
  rw [fetch_transcript_eq_handle, h]
  constructor
  · intro c hc
    simp only [handleOutcome, hc]
    rfl
  · intro hc
    simp only [handleOutcome, hc]
    rfl

/-- Witness for C6: a transcript exposing `de`, and one exposing nothing. -/
theorem language_reported_witness :
    lookup (fetch_transcript apiDe "dQw4w9WgXcQ") "language" = some (.str "de") ∧
    lookup (fetch_transcript apiNoLang "dQw4w9WgXcQ") "language" = some (.str "en") :=
  ⟨(language_reported apiDe "dQw4w9WgXcQ" tDe rfl).1 "de" rfl,
   (language_reported apiNoLang "dQw4w9WgXcQ" tNoLang rfl).2 rfl⟩

/-- A library behaviour agreeing with `apiDisabled` exactly on the
preferred-language list `["en"]` and differing everywhere else. -/
def apiDisabledVariant : ApiFetch := fun _ langs =>
  if langs = ["en"] then .raised .transcriptsDisabled
  else .raised (.other "different outside the en request")

/-- Claim C7: the result is a function of the single library call made with
the video id unchanged and the preferred-language list exactly `["en"]`; any
library agreeing on that one call yields the same result (no other request
is made, in any other language). -/
theorem single_call_en_only (api : ApiFetch) (vid : String) :
    fetch_transcript api vid = handleOutcome (api vid ["en"]) ∧
    ∀ api2 : ApiFetch, api2 vid ["en"] = api vid ["en"] →
      fetch_transcript api2 vid = fetch_transcript api vid := by
  refine ⟨fetch_transcript_eq_handle api vid, fun api2 h => ?_⟩
  rw [fetch_transcript_eq_handle, fetch_transcript_eq_handle, h]

/-- Witness for C7: a library differing from `apiDisabled` away from the
`["en"]` request gives the same result. -/
theorem single_call_en_only_witness :
    fetch_transcript apiDisabled "dQw4w9WgXcQ" =
      handleOutcome (apiDisabled "dQw4w9WgXcQ" ["en"]) ∧
    fetch_transcript apiDisabledVariant "dQw4w9WgXcQ" =
      fetch_transcript apiDisabled "dQw4w9WgXcQ" :=
  ⟨(single_call_en_only apiDisabled "dQw4w9WgXcQ").1,
   (single_call_en_only apiDisabled "dQw4w9WgXcQ").2 apiDisabledVariant (by decide)⟩

/-- Claim C8: when the fetch succeeds with a transcript that has some
non-empty snippet text and whose exposed language code (if any) is
non-empty, the result reports success, a non-empty transcript and a
non-empty language code. -/
theorem success_nonempty_fields (api : ApiFetch) (vid : String)
    (t : FetchedTranscript) (h : api vid ["en"] = .fetched t)
    (htext : ∃ s ∈ t.snippets, s.text ≠ "")
    (hlang : ∀ c, t.language_code = some c → c ≠ "") :
    lookup (fetch_transcript api vid) "success" = some (.bool true) ∧
    (∃ txt, lookup (fetch_transcript api vid) "transcript" = some (.str txt) ∧
      txt ≠ "") ∧
    (∃ lang, lookup (fetch_transcript api vid) "language" = some (.str lang) ∧
      lang ≠ "") := by
  rw [fetch_transcript_eq_handle, h]
  refine ⟨rfl, ⟨joinSpace (t.snippets.map Snippet.text), rfl, ?_⟩, ?_⟩
  · apply joinSpace_ne_empty
    obtain ⟨s, hs, hne⟩ := htext
    exact ⟨s.text, List.mem_map_of_mem _ hs, hne⟩
  · cases hc : t.language_code with
    | some c =>
        refine ⟨c, ?_, hlang c hc⟩
        simp only [handleOutcome, hc]
        rfl
    | none =>
        refine ⟨"en", ?_, by decide⟩
        simp only [handleOutcome, hc]
        rfl

/-- Witness for C8 at the `a`, `b`, `c` transcript with language `en`. -/
theorem success_nonempty_fields_witness :
    lookup (fetch_transcript apiABC "dQw4w9WgXcQ") "success" = some (.bool true) ∧
    (∃ txt, lookup (fetch_transcript apiABC "dQw4w9WgXcQ") "transcript" =
      some (.str txt) ∧ txt ≠ "") ∧
    (∃ lang, lookup (fetch_transcript apiABC "dQw4w9WgXcQ") "language" =
      some (.str lang) ∧ lang ≠ "") :=
  success_nonempty_fields apiABC "dQw4w9WgXcQ" tABC rfl
    ⟨⟨"a", 0, 0⟩, List.Mem.head _, by decide⟩
    (by
      intro c hc
      have h2 : some "en" = some c := hc
      injection h2 with h3
      subst h3
      decide)

/-- Claim C9: every result of `fetch_transcript` carries a boolean
`success` key, and its key set is determined by that flag: exactly
`success`, `transcript`, `language` when true and exactly `success`,
`error` when false. -/
theorem result_shape (api : ApiFetch) (vid : String) :
    ∃ b, lookup (fetch_transcript api vid) "success" = some (.bool b) ∧
      keys (fetch_transcript api vid) =
        (if b then ["success", "transcript", "language"]
         else ["success", "error"]) := by
  rw [fetch_transcript_eq_handle]
  cases h : api vid ["en"] with
  | fetched t => exact ⟨true, rfl, rfl⟩
  | raised e => cases e <;> exact ⟨false, rfl, rfl⟩

/-- Claim C10: `fetch_transcript` is deterministic in the video id and the
library's response to the one call it makes: equal inputs and equal library
responses give identical results. -/
theorem fetch_deterministic (api1 api2 : ApiFetch) (v1 v2 : String)
    (hv : v1 = v2) (hresp : api1 v1 ["en"] = api2 v2 ["en"]) :
    fetch_transcript api1 v1 = fetch_transcript api2 v2 := by
  subst hv
  rw [fetch_transcript_eq_handle, fetch_transcript_eq_handle, hresp]

/-- Witness for C10: two different library functions agreeing on the one
call give the same result. -/
theorem fetch_deterministic_witness :
    fetch_transcript apiDisabled "dQw4w9WgXcQ" =
      fetch_transcript apiDisabledVariant "dQw4w9WgXcQ" :=
  fetch_deterministic apiDisabled apiDisabledVariant "dQw4w9WgXcQ" "dQw4w9WgXcQ"
    rfl (by decide)

end YoutubeTranscriptFetcher
